import Mathlib

/-!
Verification development for the particle-to-level-set conversion node
(`SOP_OpenVDB_From_Particles.cc`).

The cook pipeline is shallowly embedded over exact rationals.  Values the
node computes itself (parameter handling, branching, effective radii,
dilation counts, background/transform propagation, warnings and errors,
output-primitive assembly) are translated directly from the source.  The
OpenVDB library routines the node calls (`ParticlesToLevelSet`,
`topologyToLevelSet`, the point-mask builder) are outside this file's
source tree; the voxel data they produce is supplied by an explicit
`RasterOracle`, while the metadata handling (a rasterizer writes into the
caller's grid, which keeps its preset background and transform) follows
the library contract stated in the specification.  The CSG combiners and
the fog conversion are modelled from the specification as well.  Every
library invocation is additionally recorded in a trace, with the exact
argument values the node passed, so that theorems about "which parameters
were used" are about the node's own computations.
-/

namespace FromParticles

/-- World-space vector. -/
abbrev Vec3 := ℚ × ℚ × ℚ

/-- Integer voxel coordinate. -/
abbrev Coord := Int × Int × Int

/-- Grid classification tag. -/
inductive GridClass where
  | levelSet
  | fogVolume
  | unknownClass
deriving DecidableEq, Repr

/-- Uniform linear transform: voxel size plus translation part. -/
structure Transform where
  voxelSize : ℚ
  origin : Vec3
deriving DecidableEq, Repr

/-- Mirrors `openvdb::math::Transform::createLinearTransform(voxelSize)`. -/
def Transform.createLinear (s : ℚ) : Transform := ⟨s, (0, 0, 0)⟩

/-- Sparse float grid: association list of active voxels plus a background
value, a classification, a transform and a name. -/
structure FloatGrid where
  background : ℚ
  voxels : List (Coord × ℚ)
  gridClass : GridClass
  transform : Transform
  name : String
deriving DecidableEq, Repr

/-- Value stored at a coordinate: the active value if present, else the
background. -/
def FloatGrid.valueAt (g : FloatGrid) (c : Coord) : ℚ :=
  match g.voxels.find? (fun p => p.1 = c) with
  | some p => p.2
  | none => g.background

/-- Mirrors `openvdb::FloatGrid::create(background)`: an empty grid whose
default transform has unit voxel size. -/
def FloatGrid.create (b : ℚ) : FloatGrid :=
  { background := b, voxels := [], gridClass := GridClass.unknownClass,
    transform := Transform.createLinear 1, name := "" }

/-- Sparse Int32 grid (the nearest-particle index field). -/
structure Int32Grid where
  background : Int
  voxels : List (Coord × Int)
  transform : Transform
  name : String
deriving DecidableEq, Repr

/-- Modelled from the spec: `openvdb::tools::csgUnion` is not under the
embedded source tree.  Union of two signed-distance fields takes, per
voxel, the smaller signed distance; voxels whose magnitude equals the
background are pruned from the active set.  Metadata stays with the first
(destination) grid, which the C++ routine mutates in place. -/
def csgUnion (a b : FloatGrid) : FloatGrid :=
  { a with voxels :=
      ((a.voxels.map Prod.fst) ++ (b.voxels.map Prod.fst)).dedup.filterMap (fun c =>
        let v := min (a.valueAt c) (b.valueAt c)
        if |v| = a.background then none else some (c, v)) }

/-- Modelled from the spec: `openvdb::tools::csgDifference` is not under
the embedded source tree.  Difference keeps regions inside the first
surface but outside the second (per-voxel `max(a, -b)`), pruning voxels
whose magnitude equals the background.  Metadata stays with the first
grid. -/
def csgDifference (a b : FloatGrid) : FloatGrid :=
  { a with voxels :=
      ((a.voxels.map Prod.fst) ++ (b.voxels.map Prod.fst)).dedup.filterMap (fun c =>
        let v := max (a.valueAt c) (-(b.valueAt c))
        if |v| = a.background then none else some (c, v)) }

/-- Modelled from the spec: `openvdb::tools::sdfToFogVolume` is not under
the embedded source tree.  Interior (negative) voxels are remapped to the
`(0, 1]` range, exterior voxels become inactive zero background, and the
grid becomes a fog volume. -/
def sdfToFogVolume (g : FloatGrid) : FloatGrid :=
  { background := 0,
    voxels := g.voxels.filterMap (fun cv =>
      if cv.2 < 0 then some (cv.1, min 1 (-cv.2 / g.background)) else none),
    gridClass := GridClass.fogVolume,
    transform := g.transform,
    name := g.name }

/-- Storage kind of a point attribute (`GA_Storage`). -/
inductive GAStorage where
  | int16
  | int32
  | int64
  | real16
  | real32
  | real64
  | otherStorage
deriving DecidableEq, Repr

/-- Type-info tag of a point attribute (`GA_TypeInfo`), only the cases the
node inspects. -/
inductive GATypeInfo where
  | hpoint
  | point
  | vector
  | normal
  | otherType
deriving DecidableEq, Repr

/-- One named point attribute of the input geometry, at the granularity
the node inspects it: storage kind, tuple size, type info, and whether a
tuple interface (`getAIFTuple`) is available. -/
structure GeoAttr where
  name : String
  storage : GAStorage
  tupleSize : Nat
  typeInfo : GATypeInfo
  hasTuple : Bool
deriving DecidableEq, Repr

/-- The input point geometry (`GU_Detail`): positions, the optional
`pscale` radius attribute, the optional `v` velocity attribute, and the
other named point attributes. -/
structure PointGeo where
  positions : List Vec3
  pscale : Option (List ℚ)
  vel : Option (List Vec3)
  attrs : List GeoAttr
deriving DecidableEq, Repr

/-- The adapter class `ParticleList`: a read-only view of the geometry
plus the two runtime multipliers. -/
structure ParticleList where
  gdp : PointGeo
  radiusMult : ℚ
  velocityMult : ℚ
deriving DecidableEq, Repr

/-- Mirrors `ParticleList::hasRadius`: the `pscale` handle is valid. -/
def ParticleList.hasRadius (pl : ParticleList) : Bool := pl.gdp.pscale.isSome

/-- Mirrors `ParticleList::hasVelocity`: the velocity handle is valid. -/
def ParticleList.hasVelocity (pl : ParticleList) : Bool := pl.gdp.vel.isSome

/-- Mirrors `ParticleList::size`. -/
def ParticleList.size (pl : ParticleList) : Nat := pl.gdp.positions.length

/-- The raw stored `pscale` value of particle `n` (what
`mScaleHandle.get(m)` reads). -/
def ParticleList.storedRadius (pl : ParticleList) (n : Nat) : ℚ :=
  (pl.gdp.pscale.getD []).getD n 0

/-- Mirrors `ParticleList::getPos`. -/
def ParticleList.getPos (pl : ParticleList) (n : Nat) : Vec3 :=
  pl.gdp.positions.getD n (0, 0, 0)

/-- Mirrors `ParticleList::getPosRad`: radius is the multiplier times the
stored `pscale` value. -/
def ParticleList.getPosRad (pl : ParticleList) (n : Nat) : Vec3 × ℚ :=
  (pl.getPos n, pl.radiusMult * pl.storedRadius n)

/-- Mirrors `ParticleList::getPosRadVel`: radius falls back to the bare
multiplier when no `pscale` attribute exists; velocity is scaled by the
velocity multiplier. -/
def ParticleList.getPosRadVel (pl : ParticleList) (n : Nat) : Vec3 × ℚ × Vec3 :=
  let v := (pl.gdp.vel.getD []).getD n (0, 0, 0)
  (pl.getPos n,
   if pl.hasRadius then pl.radiusMult * pl.storedRadius n else pl.radiusMult,
   (pl.velocityMult * v.1, pl.velocityMult * v.2.1, pl.velocityMult * v.2.2))

/-- Mirrors `ParticleList::getAtt`: the attribute value is the particle
index itself. -/
def ParticleList.getAtt (n : Nat) : Int := (n : Int)

/-- Mirrors `ParticleList::setRadiusMult`. -/
def ParticleList.setRadiusMult (pl : ParticleList) (m : ℚ) : ParticleList :=
  { pl with radiusMult := m }

/-- One entry of the `attrList` multiparm: source attribute name, output
grid name, vector-type menu value. -/
structure AttrRequest where
  attrName : String
  gridName : String
  vecType : Int
deriving DecidableEq, Repr

/-- Value kind an attribute grid is materialized with, after the storage
and tuple-size dispatch. -/
inductive ValueKind where
  | vec3i
  | i32
  | i64
  | vec3s
  | f32
  | vec3d
  | f64
deriving DecidableEq, Repr

/-- One output field descriptor produced by `addAttributeDetails`: source
attribute, final grid name, component index (none for a vector grid),
vector-type tag, and value kind. -/
structure AttributeDetail where
  srcName : String
  outName : String
  component : Option Nat
  vecType : Option Int
  kind : ValueKind
deriving DecidableEq, Repr

/-- Mirrors `addAttributeDetails`: a vector request (vecType present)
yields one vector descriptor; otherwise one descriptor per tuple
component, with a `_c` suffix on a nonempty custom name when the tuple
has more than one component.  An empty custom name falls back to the
attribute's own name. -/
def addAttributeDetails (kind : ValueKind) (a : GeoAttr) (attrTupleSize : Nat)
    (customName : String) (vecType : Option Int) : List AttributeDetail :=
  match vecType with
  | some vt =>
      [{ srcName := a.name,
         outName := if 0 < customName.length then customName else a.name,
         component := none, vecType := some vt, kind := kind }]
  | none =>
      (List.range attrTupleSize).map (fun c =>
        { srcName := a.name,
          outName := if 0 < customName.length then
              (if attrTupleSize ≠ 1 then customName ++ "_" ++ toString c else customName)
            else a.name,
          component := some c, vecType := none, kind := kind })

/-- The storage and tuple-size dispatch of
`constructGenericAtttributeList`'s switch statement; `none` for an
unrecognized storage kind. -/
def detailsFor (a : GeoAttr) (customName : String) (vecType : Int) :
    Option (List AttributeDetail) :=
  let iav := a.typeInfo = GATypeInfo.hpoint ∨ a.typeInfo = GATypeInfo.point
      ∨ a.typeInfo = GATypeInfo.vector ∨ a.typeInfo = GATypeInfo.normal
  match a.storage with
  | GAStorage.int16 =>
      some (if iav ∨ a.tupleSize = 3 then
          addAttributeDetails ValueKind.vec3i a a.tupleSize customName (some vecType)
        else addAttributeDetails ValueKind.i32 a a.tupleSize customName none)
  | GAStorage.int32 =>
      some (if iav ∨ a.tupleSize = 3 then
          addAttributeDetails ValueKind.vec3i a a.tupleSize customName (some vecType)
        else addAttributeDetails ValueKind.i32 a a.tupleSize customName none)
  | GAStorage.int64 =>
      some (addAttributeDetails ValueKind.i64 a a.tupleSize customName none)
  | GAStorage.real16 =>
      some (if iav ∨ a.tupleSize = 3 then
          addAttributeDetails ValueKind.vec3s a a.tupleSize customName (some vecType)
        else addAttributeDetails ValueKind.f32 a a.tupleSize customName none)
  | GAStorage.real32 =>
      some (if iav ∨ a.tupleSize = 3 then
          addAttributeDetails ValueKind.vec3s a a.tupleSize customName (some vecType)
        else addAttributeDetails ValueKind.f32 a a.tupleSize customName none)
  | GAStorage.real64 =>
      some (if iav ∨ a.tupleSize = 3 then
          addAttributeDetails ValueKind.vec3d a a.tupleSize customName (some vecType)
        else addAttributeDetails ValueKind.f64 a a.tupleSize customName none)
  | GAStorage.otherStorage => none

/-- Warning text for an attribute name not found on the geometry. -/
def skipAttrMsg : String := "Skipped unrecognized attribute"

/-- Warning text for an attribute whose type cannot be handled. -/
def skipAttrTypeMsg : String := "Skipped unrecognized attribute type"

/-- Loop state of `constructGenericAtttributeList`: accumulated
descriptors, the multiparm instance of the last `point_list_index`
request (`-1` when none seen), and accumulated warnings. -/
structure CgalState where
  details : List AttributeDetail
  inst : Int
  warnings : List String
deriving DecidableEq, Repr

/-- Loop tail of one `constructGenericAtttributeList` iteration, for a
request that is neither empty nor the reserved name: look the attribute
up, check its tuple interface, and dispatch on its storage. -/
def cgalStepTail (geo : PointGeo) (st : CgalState) (r : AttrRequest) : CgalState :=
  match geo.attrs.find? (fun a => a.name == r.attrName) with
  | none => { st with warnings := st.warnings ++ [skipAttrMsg] }
  | some a =>
      if a.hasTuple = false then { st with warnings := st.warnings ++ [skipAttrTypeMsg] }
      else
        match detailsFor a r.gridName r.vecType with
        | none => { st with warnings := st.warnings ++ [skipAttrTypeMsg] }
        | some ds => { st with details := st.details ++ ds }

/-- One iteration of the `constructGenericAtttributeList` loop over the
1-based multiparm instances: empty names are skipped, the reserved name
`point_list_index` only records its instance number, anything else goes
through the attribute dispatch. -/
def cgalStep (geo : PointGeo) (st : CgalState) (ir : Nat × AttrRequest) : CgalState :=
  if ir.2.attrName.length = 0 then st
  else if ir.2.attrName = "point_list_index" then { st with inst := (ir.1 : Int) }
  else cgalStepTail geo st ir.2

/-- Pair each list element with its 1-based (more generally `i`-based)
multiparm instance number. -/
def enumFrom1 (i : Nat) : List AttrRequest → List (Nat × AttrRequest)
  | [] => []
  | r :: rs => (i, r) :: enumFrom1 (i + 1) rs

/-- Mirrors `constructGenericAtttributeList`: fold the per-instance step
over the multiparm entries, starting with no descriptors and instance
`-1`. -/
def constructGenericAtttributeList (geo : PointGeo) (reqs : List AttrRequest) : CgalState :=
  (enumFrom1 1 reqs).foldl (cgalStep geo) { details := [], inst := -1, warnings := [] }

/-- All the node parameters the cook evaluates. -/
structure Params where
  voxelsize : ℚ
  builddistance : Bool
  buildfog : Bool
  buildmask : Bool
  distancename : String
  fogname : String
  maskname : String
  boundinglimit : ℚ
  merge : Bool
  useworldspace : Bool
  halfband : ℚ
  halfbandvoxels : ℚ
  particlescale : ℚ
  minradius : ℚ
  velocitytrails : Bool
  velocityscale : ℚ
  trailresolution : ℚ
  conversion : Int
  dilation : Int
  closing : Int
  smoothing : Int
  attrs : List AttrRequest
deriving DecidableEq, Repr

/-- Which rasterization entry point `convert` selected, with the
arguments the node passed. -/
inductive RasterMode where
  | trails (trailres : ℚ)
  | spheres
  | spheresConstRadius (r : ℚ)
deriving DecidableEq, Repr

/-- One `ParticlesToLevelSet` invocation: the adapter state at call time,
the radius cutoffs, and the selected entry point. -/
structure RasterCall where
  paList : ParticleList
  rmin : ℚ
  rmax : ℚ
  mode : RasterMode
deriving DecidableEq, Repr

/-- The rasterization call `convert`/`convertWithAttributes` issue:
`setRmin(minradius)`, `setRmax(1e15)`, then trails when requested and
velocity is present, spheres with per-point radius when `pscale` exists,
and spheres with the bare multiplier as constant radius otherwise. -/
def mkRasterCall (p : Params) (pl : ParticleList) : RasterCall :=
  { paList := pl, rmin := p.minradius, rmax := (10 : ℚ) ^ 15,
    mode := if p.velocitytrails && pl.hasVelocity then RasterMode.trails p.trailresolution
      else if pl.hasRadius then RasterMode.spheres
      else RasterMode.spheresConstRadius pl.radiusMult }

/-- Results of the external OpenVDB library routines, supplied as data:
the voxels a rasterization writes, the voxels of the index grid, the
ignored-particle counts, the voxels `topologyToLevelSet` produces, and
the point-occupancy mask coordinates. -/
structure RasterOracle where
  voxels : FloatGrid → RasterCall → List (Coord × ℚ)
  idxVoxels : FloatGrid → RasterCall → List (Coord × Int)
  minCount : RasterCall → Nat
  maxCount : RasterCall → Nat
  topoVoxels : Transform → List Coord → Int → Int → Int → Int → List (Coord × ℚ)
  pointMaskCoords : Transform → PointGeo → List Coord

/-- Modelled from the spec: `openvdb::tools::topologyToLevelSet` is not
under the embedded source tree.  It builds a level set around the mask
coordinates using the given transform; its half-band is `bandWidth`
voxels, so the background value is `bandWidth` times the voxel size.  The
voxel data comes from the oracle. -/
def topologyToLevelSet (o : RasterOracle) (tr : Transform) (coords : List Coord)
    (bandWidth closing dilation smoothing : Int) : FloatGrid :=
  { background := (bandWidth : ℚ) * tr.voxelSize,
    voxels := o.topoVoxels tr coords bandWidth closing dilation smoothing,
    gridClass := GridClass.levelSet,
    transform := tr,
    name := "" }

/-- Warning text when particles were skipped by the radius cutoffs. -/
def ignoredWarnMsg : String :=
  "Ignored small and large particles (hint: change Minimum Radius in Voxels)"

/-- Result of `convert`: the rasterized grid, the call that produced it,
and any warnings. -/
structure ConvertRes where
  grid : FloatGrid
  call : RasterCall
  warnings : List String
deriving Repr

/-- Mirrors `SOP_OpenVDB_From_Particles::convert`: rasterize into the
caller's grid (which keeps its preset background and transform) and warn
once, in aggregate, when particles were ignored. -/
def convert (p : Params) (o : RasterOracle) (outputGrid : FloatGrid)
    (pl : ParticleList) : ConvertRes :=
  let call := mkRasterCall p pl
  let g := { outputGrid with voxels := o.voxels outputGrid call }
  let warns := if 0 < o.minCount call + o.maxCount call then [ignoredWarnMsg] else []
  ⟨g, call, warns⟩

/-- One output primitive handed to the host: a float grid (distance, fog
or mask), the exported index grid, or an attribute grid described by its
descriptor, transform and active topology. -/
inductive OutGrid where
  | fgrid (g : FloatGrid)
  | igrid (g : Int32Grid)
  | agrid (d : AttributeDetail) (tr : Transform) (topology : List Coord)
deriving DecidableEq, Repr

/-- Transform carried by an output primitive. -/
def OutGrid.transform : OutGrid → Transform
  | OutGrid.fgrid g => g.transform
  | OutGrid.igrid g => g.transform
  | OutGrid.agrid _ tr _ => tr

/-- Result of `convertWithAttributes`: the rasterized grid, the index
grid, the attribute and index output primitives, the call, and
warnings. -/
structure ConvertAttrRes where
  grid : FloatGrid
  idxGrid : Int32Grid
  prims : List OutGrid
  call : RasterCall
  warnings : List String
deriving Repr

/-- Mirrors `SOP_OpenVDB_From_Particles::convertWithAttributes`:
rasterize with an `Int32` attribute (the index grid shares the output
grid's transform and topology, per the library contract), then build the
attribute descriptors and materialize one output primitive per
descriptor; when some multiparm instance requested `point_list_index`,
export the index grid itself under that instance's grid name, defaulting
to `point_list_index`. -/
def convertWithAttributes (p : Params) (o : RasterOracle) (outputGrid : FloatGrid)
    (pl : ParticleList) (geo : PointGeo) : ConvertAttrRes :=
  let call := mkRasterCall p pl
  let g := { outputGrid with voxels := o.voxels outputGrid call }
  let idxGrid : Int32Grid :=
    { background := 0, voxels := o.idxVoxels outputGrid call,
      transform := outputGrid.transform, name := "" }
  let warns := if 0 < o.minCount call + o.maxCount call then [ignoredWarnMsg] else []
  if 0 < p.attrs.length then
    let st := constructGenericAtttributeList geo p.attrs
    let attrPrims := st.details.map (fun d =>
      OutGrid.agrid d g.transform (idxGrid.voxels.map Prod.fst))
    let idxPrims :=
      if -1 < st.inst then
        let nm0 := match p.attrs.get? (st.inst.toNat - 1) with
          | some r => r.gridName
          | none => ""
        let nm := if nm0 = "" then "point_list_index" else nm0
        [OutGrid.igrid { idxGrid with name := nm }]
      else []
    ⟨g, idxGrid, attrPrims ++ idxPrims, call, warns ++ st.warnings⟩
  else ⟨g, idxGrid, [], call, warns⟩

/-- A reference VDB primitive from the second input, at the granularity
the node inspects it: transform, class, whether its value type is
`float`, its background (meaningful for a float grid) and its voxels. -/
structure RefPrim where
  transform : Transform
  gridClass : GridClass
  isFloatType : Bool
  background : ℚ
  voxels : List (Coord × ℚ)
deriving DecidableEq, Repr

/-- The deep copy `gridPtrCast<FloatGrid>(refPrim->getGrid().deepCopyGrid())`
yields when the reference is a float grid. -/
def RefPrim.asFloatGrid (rp : RefPrim) : FloatGrid :=
  { background := rp.background, voxels := rp.voxels, gridClass := rp.gridClass,
    transform := rp.transform, name := "" }

/-- Outcome of the reference-handling block: transform, voxel size and
background to use, the grid to merge into when merging proceeds, plus
diagnostics. -/
structure RefOutcome where
  transform : Transform
  voxelSize : ℚ
  background : ℚ
  mergeGrid : Option FloatGrid
  messages : List String
  warnings : List String
deriving Repr

/-- Diagnostic emitted when the reference half-band width overrides the
UI parameters. -/
def bandMatchMsg : String :=
  "Note: Matching reference level set half-band width and background value. (UI half-band parameter is ignored.)"

/-- Warning emitted when merging is requested into a level set whose
value type is not float. -/
def notFloatGridMsg : String :=
  "Cannot write into the selected reference grid because it is not a float grid."

/-- Warning emitted when merging is requested into a grid that is not a
level set. -/
def notLevelSetMsg : String := "Can only write directly into a level set grid."

/-- Error emitted when the second input is connected but holds no VDB
primitive. -/
def noVdbPrimsMsg : String := "Second input has no VDB primitives."

/-- The reference-block outcome when a reference primitive was found:
its transform and voxel size are adopted; the background is overridden
(with a diagnostic) when the primitive is a float-typed level set; when
merging is requested, the deep copy to write into is produced only for a
float-typed level set, otherwise a warning is recorded and no merge grid
exists. -/
def refOutcomeFor (p : Params) (uiBg : ℚ) (rp : RefPrim) : RefOutcome :=
  { transform := rp.transform,
    voxelSize := rp.transform.voxelSize,
    background := if rp.gridClass = GridClass.levelSet ∧ rp.isFloatType = true
      then rp.background else uiBg,
    mergeGrid := if p.merge = true then
        (if rp.gridClass = GridClass.levelSet then
          (if rp.isFloatType = true then some rp.asFloatGrid else none)
         else none)
      else none,
    messages := if rp.gridClass = GridClass.levelSet ∧ rp.isFloatType = true
      then [bandMatchMsg] else [],
    warnings := if p.merge = true then
        (if rp.gridClass = GridClass.levelSet then
          (if rp.isFloatType = true then [] else [notFloatGridMsg])
         else [notLevelSetMsg])
      else [] }

/-- Mirrors the reference block of `cookVDBSop` (second input handling):
no second input keeps the UI transform and background; a second input
without VDB primitives is a fatal error; a reference primitive is
processed by `refOutcomeFor`. -/
def processReference (p : Params) (uiTr : Transform) (uiVs uiBg : ℚ) :
    Option (Option RefPrim) → Except String RefOutcome
  | none => Except.ok
      { transform := uiTr, voxelSize := uiVs, background := uiBg,
        mergeGrid := none, messages := [], warnings := [] }
  | some none => Except.error noVdbPrimsMsg
  | some (some rp) => Except.ok (refOutcomeFor p uiBg rp)

/-- Which grid a recorded library call targeted. -/
inductive TargetId where
  | main
  | maskMax
  | maskMin
deriving DecidableEq, Repr

/-- Trace of the library invocations the cook issued, with the exact
arguments the node computed. -/
inductive TraceOp where
  | raster (target : TargetId) (call : RasterCall)
  | topo (target : TargetId) (bandWidth closing dilation smoothing : Int)
deriving DecidableEq, Repr

/-- Truncation toward zero, the semantics of the C++ `int` cast applied
to a floating value. -/
def ratTrunc (q : ℚ) : Int := if 0 ≤ q then Int.floor q else Int.ceil q

/-- Warning emitted when velocity trails are requested without a velocity
attribute. -/
def trailsWarnMsg : String :=
  "Velocity trails require a velocity point attribute named v of type 3fv."

/-- Result of a conversion or mask stage: the produced grid, extra output
primitives, warnings, and trace of library calls. -/
structure StageRes where
  grid : FloatGrid
  prims : List OutGrid
  warnings : List String
  trace : List TraceOp
deriving Repr

/-- Mirrors the primary conversion of `cookVDBSop`: start from the merge
grid when one was produced, else a fresh grid with the chosen background;
tag it a level set and give it the chosen transform; then either the
sphere path (with the missing-velocity warning, and the attribute variant
when attribute outputs were requested) or the topology path
(`topologyToLevelSet` unioned into the output grid). -/
def mainConversion (p : Params) (o : RasterOracle) (geo : PointGeo) (paList : ParticleList)
    (ro : RefOutcome) (bandWidth : Int) : StageRes :=
  let outputGrid0 := match ro.mergeGrid with
    | some g => g
    | none => FloatGrid.create ro.background
  let outputGrid := { outputGrid0 with
    gridClass := GridClass.levelSet, transform := ro.transform }
  if p.conversion = 0 then
    let trailWarn := if p.velocitytrails && !paList.hasVelocity then [trailsWarnMsg] else []
    if 0 < p.attrs.length then
      let r := convertWithAttributes p o outputGrid paList geo
      ⟨r.grid, r.prims, trailWarn ++ r.warnings, [TraceOp.raster TargetId.main r.call]⟩
    else
      let r := convert p o outputGrid paList
      ⟨r.grid, [], trailWarn ++ r.warnings, [TraceOp.raster TargetId.main r.call]⟩
  else
    let coords := o.pointMaskCoords ro.transform geo
    let sdfGrid := topologyToLevelSet o ro.transform coords bandWidth p.closing
        p.dilation p.smoothing
    ⟨csgUnion outputGrid sdfGrid, [], [],
     [TraceOp.topo TargetId.main bandWidth p.closing p.dilation p.smoothing]⟩

/-- Result of the mask stage. -/
structure MaskRes where
  grid : FloatGrid
  warnings : List String
  trace : List TraceOp
deriving Repr

/-- Mirrors the bounding-mask block of `cookVDBSop`: clamp the offset to
`[0, 1]`; start from two fresh level-set grids; when the offset is
positive, rebuild them with the adapter's radius multiplier scaled by
`1 + offset` and `1 - offset` on the sphere path, or with dilation counts
`ceil(min(dilation, 1) * (1 + offset))` and the `int`-cast of
`min(dilation, 1) * (1 - offset)` on the topology path; finally take the
CSG difference and convert it to a fog volume named by the mask name. -/
def buildMask (p : Params) (o : RasterOracle) (geo : PointGeo) (paList : ParticleList)
    (ro : RefOutcome) (bandWidth : Int) : MaskRes :=
  let radiusScale := paList.radiusMult
  let offset := min (max p.boundinglimit 0) 1
  let maxGrid0 : FloatGrid := { FloatGrid.create ro.background with
      gridClass := GridClass.levelSet, transform := ro.transform }
  let minGrid0 : FloatGrid := { FloatGrid.create ro.background with
      gridClass := GridClass.levelSet, transform := ro.transform }
  let step : FloatGrid × FloatGrid × List String × List TraceOp :=
    if 0 < offset then
      if p.conversion = 0 then
        let rmax := convert p o maxGrid0 (paList.setRadiusMult (radiusScale * (1 + offset)))
        let rmin := convert p o minGrid0 (paList.setRadiusMult (radiusScale * (1 - offset)))
        (rmax.grid, rmin.grid, rmax.warnings ++ rmin.warnings,
         [TraceOp.raster TargetId.maskMax rmax.call, TraceOp.raster TargetId.maskMin rmin.call])
      else
        let coords := o.pointMaskCoords ro.transform geo
        let dx : ℚ := ((min p.dilation 1 : Int) : ℚ)
        let increase : Int := Int.ceil (dx * (1 + offset))
        let decrease : Int := ratTrunc (dx * (1 - offset))
        (topologyToLevelSet o ro.transform coords bandWidth p.closing increase p.smoothing,
         topologyToLevelSet o ro.transform coords bandWidth p.closing decrease p.smoothing,
         [],
         [TraceOp.topo TargetId.maskMax bandWidth p.closing increase p.smoothing,
          TraceOp.topo TargetId.maskMin bandWidth p.closing decrease p.smoothing])
    else (maxGrid0, minGrid0, [], [])
  { grid := { sdfToFogVolume (csgDifference step.1 step.2.1) with name := p.maskname },
    warnings := step.2.2.1,
    trace := step.2.2.2 }

/-- The whole cook's observable outcome. -/
structure CookResult where
  errors : List String
  warnings : List String
  messages : List String
  prims : List OutGrid
  trace : List TraceOp
deriving DecidableEq, Repr

/-- The cook input: parameters, first-input geometry, and the second
input (`none` when not connected; `some none` when connected without a
VDB primitive; `some (some rp)` when a reference primitive is found). -/
structure CookInput where
  params : Params
  ptGeo : PointGeo
  refInput : Option (Option RefPrim)
deriving Repr

/-- Fatal error text for a degenerate voxel size. -/
def voxelSizeErrMsg : String := "The voxel size is too small."

/-- Warning text when no output field type is requested. -/
def noOutputMsg : String := "No output selected"

/-- Background implied by the UI parameters: the world-space half-band
directly, or the voxel-count half-band times the voxel size. -/
def uiBackground (p : Params) : ℚ :=
  if p.useworldspace then p.halfband else p.voxelsize * p.halfbandvoxels

/-- The transform implied by the UI voxel size. -/
def uiTransform (p : Params) : Transform := Transform.createLinear p.voxelsize

/-- The adapter instance the cook constructs: the input geometry with the
particle-scale and velocity-scale multipliers. -/
def cookPaList (inp : CookInput) : ParticleList :=
  { gdp := inp.ptGeo, radiusMult := inp.params.particlescale,
    velocityMult := inp.params.velocityscale }

/-- The topology band width: `int(std::ceil(background / voxelSize))`. -/
def cookBandWidth (ro : RefOutcome) : Int := Int.ceil (ro.background / ro.voxelSize)

/-- The cook body once the reference block has produced an outcome:
primary conversion, optional mask construction, then the optional
distance and fog outputs. -/
def cookMain (o : RasterOracle) (inp : CookInput) (ro : RefOutcome) : CookResult :=
  let p := inp.params
  let mc := mainConversion p o inp.ptGeo (cookPaList inp) ro (cookBandWidth ro)
  let mk := buildMask p o inp.ptGeo (cookPaList inp) ro (cookBandWidth ro)
  { errors := [],
    warnings := ro.warnings ++ mc.warnings ++ (if p.buildmask = true then mk.warnings else []),
    messages := ro.messages,
    prims := mc.prims
      ++ (if p.buildmask = true then [OutGrid.fgrid mk.grid] else [])
      ++ (if p.builddistance = true then
            [OutGrid.fgrid { mc.grid with name := p.distancename }] else [])
      ++ (if p.buildfog = true then
            [OutGrid.fgrid { sdfToFogVolume mc.grid with name := p.fogname }] else []),
    trace := mc.trace ++ (if p.buildmask = true then mk.trace else []) }

/-- Mirrors `cookVDBSop`: reject a voxel size below `1e-5` as a fatal
error before any work; reject the absence of any distance, fog or
attribute output with a warning and no output; otherwise process the
reference input (a connected second input without VDB primitives is a
fatal error) and run the pipeline. -/
def cookVDBSop (o : RasterOracle) (inp : CookInput) : CookResult :=
  if inp.params.voxelsize < 1 / 100000 then
    { errors := [voxelSizeErrMsg], warnings := [], messages := [], prims := [], trace := [] }
  else if inp.params.buildfog = false ∧ inp.params.builddistance = false
      ∧ inp.params.attrs = [] then
    { errors := [], warnings := [noOutputMsg], messages := [], prims := [], trace := [] }
  else
    match processReference inp.params (uiTransform inp.params) inp.params.voxelsize
        (uiBackground inp.params) inp.refInput with
    | Except.error e =>
        { errors := [e], warnings := [], messages := [], prims := [], trace := [] }
    | Except.ok ro => cookMain o inp ro

/-- Mirrors the voxel-units side of `SOP_OpenVDB_From_Particles::convertUnits`. -/
def voxelToWorld (voxels voxSize : ℚ) : ℚ := voxels * voxSize

/-- Mirrors the world-units side of `SOP_OpenVDB_From_Particles::convertUnits`. -/
def worldToVoxel (world voxSize : ℚ) : ℚ := world / voxSize

/-- Mirrors `SOP_OpenVDB_From_Particles::convertUnits`: returns the
`(halfband, halfbandvoxels)` pair after the callback ran.  With the
world-space toggle on, the world value is recomputed from the voxel
count; otherwise the voxel count is recomputed from the world value. -/
def convertUnits (useworldspace : Bool) (voxSize halfband halfbandvoxels : ℚ) : ℚ × ℚ :=
  if useworldspace then (voxelToWorld halfbandvoxels voxSize, halfbandvoxels)
  else (halfband, worldToVoxel halfband voxSize)

/-! ### Concrete fixtures used to evaluate the model -/

/-- An oracle whose library calls produce no voxels and ignore no
particles. -/
def trivOracle : RasterOracle :=
  { voxels := fun _ _ => [], idxVoxels := fun _ _ => [],
    minCount := fun _ => 0, maxCount := fun _ => 0,
    topoVoxels := fun _ _ _ _ _ _ => [], pointMaskCoords := fun _ _ => [] }

/-- Two plain points, no `pscale`, no velocity, no extra attributes. -/
def geoPlain : PointGeo :=
  { positions := [(0, 0, 0), (1, 0, 0)], pscale := none, vel := none, attrs := [] }

/-- One point carrying a `pscale` of 3. -/
def geoRad : PointGeo :=
  { positions := [(0, 0, 0)], pscale := some [3], vel := none, attrs := [] }

/-- Default-ish parameter values. -/
def baseParams : Params :=
  { voxelsize := 1/10, builddistance := true, buildfog := false, buildmask := false,
    distancename := "surface", fogname := "density", maskname := "boundingvolume",
    boundinglimit := 1/4, merge := false, useworldspace := false,
    halfband := 1, halfbandvoxels := 3, particlescale := 1, minradius := 3/2,
    velocitytrails := false, velocityscale := 1, trailresolution := 1,
    conversion := 0, dilation := 1, closing := 1, smoothing := 0, attrs := [] }

/-- Topology-path mask construction with `dilation = 3` and a bounding
limit of one half. -/
def c1Params : Params :=
  { baseParams with
    conversion := 1, buildmask := true, boundinglimit := 1/2, dilation := 3 }

/-- Cook input for the topology-path mask scaling evaluation. -/
def c1Input : CookInput := { params := c1Params, ptGeo := geoPlain, refInput := none }

/-- Sphere-path mask construction with particle scale 2. -/
def c1sParams : Params :=
  { baseParams with buildmask := true, boundinglimit := 1/4, particlescale := 2 }

/-- Cook input for the sphere-path mask scaling evaluation. -/
def c1sInput : CookInput := { params := c1sParams, ptGeo := geoPlain, refInput := none }

/-- Merge requested while the second input holds no VDB primitive. -/
def c2Input : CookInput :=
  { params := { baseParams with merge := true }, ptGeo := geoPlain, refInput := some none }

/-- A reference primitive that is a fog volume (not a level set). -/
def refFog : RefPrim :=
  { transform := { voxelSize := 1/5, origin := (0, 0, 0) },
    gridClass := GridClass.fogVolume, isFloatType := true, background := 0, voxels := [] }

/-- Merge requested against a non-level-set reference primitive. -/
def c2wInput : CookInput :=
  { params := { baseParams with merge := true }, ptGeo := geoPlain,
    refInput := some (some refFog) }

/-- A float-typed level-set reference primitive with its own transform
and background. -/
def refLS : RefPrim :=
  { transform := { voxelSize := 1/5, origin := (1, 2, 3) },
    gridClass := GridClass.levelSet, isFloatType := true, background := 3/5,
    voxels := [((0, 0, 0), 1/5)] }

/-- Cook input with a float level-set reference primitive supplied. -/
def c3Input : CookInput :=
  { params := baseParams, ptGeo := geoPlain, refInput := some (some refLS) }

/-- Mask output requested with a bounding limit of zero. -/
def c4Input : CookInput :=
  { params := { baseParams with buildmask := true, boundinglimit := 0 },
    ptGeo := geoPlain, refInput := none }

/-- No distance, fog or attribute output requested. -/
def c5Input : CookInput :=
  { params := { baseParams with builddistance := false }, ptGeo := geoPlain,
    refInput := none }

/-- Only the mask output requested. -/
def c6Input : CookInput :=
  { params := { baseParams with builddistance := false, buildmask := true },
    ptGeo := geoPlain, refInput := none }

/-- Adapter over the radius-carrying geometry with multiplier 2. -/
def plRad : ParticleList := { gdp := geoRad, radiusMult := 2, velocityMult := 1 }

/-- Adapter over the plain geometry with multiplier 2. -/
def plNoRad : ParticleList := { gdp := geoPlain, radiusMult := 2, velocityMult := 1 }

/-- A geometry carrying one scalar float attribute named `density`. -/
def geoAttrs : PointGeo :=
  { positions := [(0, 0, 0)], pscale := none, vel := none,
    attrs := [{ name := "density", storage := GAStorage.real32, tupleSize := 1,
                typeInfo := GATypeInfo.otherType, hasTuple := true }] }

/-- Two attribute requests: the `density` attribute and the reserved
`point_list_index` name with a custom output name. -/
def c8Reqs : List AttrRequest :=
  [{ attrName := "density", gridName := "", vecType := 0 },
   { attrName := "point_list_index", gridName := "nearest", vecType := 0 }]

/-- Parameters requesting the two attribute outputs. -/
def c8Params : Params := { baseParams with attrs := c8Reqs }

/-- A concrete level-set grid to rasterize into. -/
def grid8 : FloatGrid :=
  { FloatGrid.create (3/10) with
    gridClass := GridClass.levelSet, transform := Transform.createLinear (1/10) }

/-- Adapter for the attribute-transfer evaluation. -/
def pl8 : ParticleList := { gdp := geoAttrs, radiusMult := 1, velocityMult := 1 }

/-- A degenerate voxel size. -/
def c10Input : CookInput :=
  { params := { baseParams with voxelsize := 1/1000000 }, ptGeo := geoPlain,
    refInput := none }

/-! ### Structural lemmas about the embedded pipeline -/

lemma convert_grid (p : Params) (o : RasterOracle) (g : FloatGrid) (pl : ParticleList) :
    (convert p o g pl).grid = { g with voxels := o.voxels g (mkRasterCall p pl) } := rfl

lemma convert_call (p : Params) (o : RasterOracle) (g : FloatGrid) (pl : ParticleList) :
    (convert p o g pl).call = mkRasterCall p pl := rfl

lemma convertWithAttributes_grid (p : Params) (o : RasterOracle) (g : FloatGrid)
    (pl : ParticleList) (geo : PointGeo) :
    (convertWithAttributes p o g pl geo).grid
      = { g with voxels := o.voxels g (mkRasterCall p pl) } := by
  unfold convertWithAttributes
  split <;> rfl

lemma convertWithAttributes_prims_transform (p : Params) (o : RasterOracle) (g : FloatGrid)
    (pl : ParticleList) (geo : PointGeo) :
    ∀ x ∈ (convertWithAttributes p o g pl geo).prims, OutGrid.transform x = g.transform := by
  intro x hx
  simp only [convertWithAttributes] at hx
  split at hx
  · rw [List.mem_append] at hx
    rcases hx with hx | hx
    · rw [List.mem_map] at hx
      obtain ⟨d, _, rfl⟩ := hx
      rfl
    · split at hx
      · rw [List.mem_singleton] at hx
        subst hx
        rfl
      · simp at hx
  · simp at hx

lemma csgUnion_transform (a b : FloatGrid) : (csgUnion a b).transform = a.transform := rfl

lemma csgUnion_background (a b : FloatGrid) : (csgUnion a b).background = a.background := rfl

lemma csgDifference_transform (a b : FloatGrid) :
    (csgDifference a b).transform = a.transform := rfl

lemma sdfToFogVolume_transform (g : FloatGrid) :
    (sdfToFogVolume g).transform = g.transform := rfl

lemma mainConversion_grid_transform (p : Params) (o : RasterOracle) (geo : PointGeo)
    (pl : ParticleList) (ro : RefOutcome) (bw : Int) :
    (mainConversion p o geo pl ro bw).grid.transform = ro.transform := by
  simp only [mainConversion]
  split
  · split <;> simp [convertWithAttributes_grid, convert_grid]
  · simp [csgUnion_transform]

lemma mainConversion_grid_background (p : Params) (o : RasterOracle) (geo : PointGeo)
    (pl : ParticleList) (ro : RefOutcome) (bw : Int) :
    (mainConversion p o geo pl ro bw).grid.background
      = (match ro.mergeGrid with
         | some g => g.background
         | none => ro.background) := by
  simp only [mainConversion]
  cases ro.mergeGrid <;>
    · split
      · split <;> simp [convertWithAttributes_grid, convert_grid, FloatGrid.create]
      · simp [csgUnion_background, FloatGrid.create]

lemma mainConversion_prims_transform (p : Params) (o : RasterOracle) (geo : PointGeo)
    (pl : ParticleList) (ro : RefOutcome) (bw : Int) :
    ∀ x ∈ (mainConversion p o geo pl ro bw).prims, OutGrid.transform x = ro.transform := by
  intro x hx
  simp only [mainConversion] at hx
  split at hx
  · split at hx
    · have h := convertWithAttributes_prims_transform _ _ _ _ _ x hx
      rw [h]
    · simp at hx
  · simp at hx

lemma buildMask_grid_transform (p : Params) (o : RasterOracle) (geo : PointGeo)
    (pl : ParticleList) (ro : RefOutcome) (bw : Int) :
    (buildMask p o geo pl ro bw).grid.transform = ro.transform := by
  simp only [buildMask, sdfToFogVolume_transform, csgDifference_transform]
  split
  · split <;> simp [convert_grid, topologyToLevelSet]
  · simp

lemma buildMask_grid_name (p : Params) (o : RasterOracle) (geo : PointGeo)
    (pl : ParticleList) (ro : RefOutcome) (bw : Int) :
    (buildMask p o geo pl ro bw).grid.name = p.maskname := rfl

lemma cookMain_errors (o : RasterOracle) (inp : CookInput) (ro : RefOutcome) :
    (cookMain o inp ro).errors = [] := rfl

lemma cookMain_messages (o : RasterOracle) (inp : CookInput) (ro : RefOutcome) :
    (cookMain o inp ro).messages = ro.messages := rfl

lemma cookMain_warnings_ne (o : RasterOracle) (inp : CookInput) (ro : RefOutcome)
    (h : ro.warnings ≠ []) : (cookMain o inp ro).warnings ≠ [] := by
  simp only [cookMain]
  intro hc
  rw [List.append_assoc, List.append_eq_nil] at hc
  exact h hc.1

lemma cookMain_prims_transform (o : RasterOracle) (inp : CookInput) (ro : RefOutcome) :
    ∀ x ∈ (cookMain o inp ro).prims, OutGrid.transform x = ro.transform := by
  intro x hx
  simp only [cookMain, List.mem_append] at hx
  rcases hx with ((hx | hx) | hx) | hx
  · exact mainConversion_prims_transform _ _ _ _ _ _ x hx
  · split at hx
    · rw [List.mem_singleton] at hx
      subst hx
      exact buildMask_grid_transform _ _ _ _ _ _
    · simp at hx
  · split at hx
    · rw [List.mem_singleton] at hx
      subst hx
      exact mainConversion_grid_transform _ _ _ _ _ _
    · simp at hx
  · split at hx
    · rw [List.mem_singleton] at hx
      subst hx
      show (sdfToFogVolume _).transform = _
      rw [sdfToFogVolume_transform]
      exact mainConversion_grid_transform _ _ _ _ _ _
    · simp at hx

lemma cookMain_distance_mem (o : RasterOracle) (inp : CookInput) (ro : RefOutcome)
    (hd : inp.params.builddistance = true) :
    OutGrid.fgrid
      { (mainConversion inp.params o inp.ptGeo (cookPaList inp) ro (cookBandWidth ro)).grid with
        name := inp.params.distancename }
      ∈ (cookMain o inp ro).prims := by
  simp only [cookMain, List.mem_append, hd, if_true]
  left
  right
  exact List.mem_singleton_self _

lemma cookMain_mask_mem (o : RasterOracle) (inp : CookInput) (ro : RefOutcome)
    (hm : inp.params.buildmask = true) :
    OutGrid.fgrid
      (buildMask inp.params o inp.ptGeo (cookPaList inp) ro (cookBandWidth ro)).grid
      ∈ (cookMain o inp ro).prims := by
  simp only [cookMain, List.mem_append, hm, if_true]
  left
  left
  right
  exact List.mem_singleton_self _

lemma cookMain_trace (o : RasterOracle) (inp : CookInput) (ro : RefOutcome)
    (hm : inp.params.buildmask = true) :
    (cookMain o inp ro).trace
      = (mainConversion inp.params o inp.ptGeo (cookPaList inp) ro (cookBandWidth ro)).trace
        ++ (buildMask inp.params o inp.ptGeo (cookPaList inp) ro (cookBandWidth ro)).trace := by
  simp [cookMain, hm]

lemma cook_eq_cookMain (o : RasterOracle) (inp : CookInput) (ro : RefOutcome)
    (hv : ¬ inp.params.voxelsize < 1 / 100000)
    (hout : ¬(inp.params.buildfog = false ∧ inp.params.builddistance = false
      ∧ inp.params.attrs = []))
    (h : processReference inp.params (uiTransform inp.params) inp.params.voxelsize
        (uiBackground inp.params) inp.refInput = Except.ok ro) :
    cookVDBSop o inp = cookMain o inp ro := by
  unfold cookVDBSop
  rw [if_neg hv, if_neg hout, h]

lemma processReference_ok_of_ne (p : Params) (tr : Transform) (vs bg : ℚ)
    (ri : Option (Option RefPrim)) (href : ri ≠ some none) :
    ∃ ro, processReference p tr vs bg ri = Except.ok ro := by
  match ri with
  | none => exact ⟨_, rfl⟩
  | some none => exact absurd rfl href
  | some (some rp) => exact ⟨_, rfl⟩

lemma ratTrunc_of_nonneg {q : ℚ} (h : 0 ≤ q) : ratTrunc q = Int.floor q := if_pos h

lemma FloatGrid.valueAt_empty (g : FloatGrid) (h : g.voxels = []) (c : Coord) :
    g.valueAt c = g.background := by
  simp [FloatGrid.valueAt, h]

lemma buildMask_offset_zero (p : Params) (o : RasterOracle) (geo : PointGeo)
    (pl : ParticleList) (ro : RefOutcome) (bw : Int)
    (hoff : min (max p.boundinglimit 0) 1 = 0) :
    (buildMask p o geo pl ro bw).grid =
      { background := 0, voxels := [], gridClass := GridClass.fogVolume,
        transform := ro.transform, name := p.maskname } := by
  simp only [buildMask, hoff]
  rw [if_neg (lt_irrefl (0 : ℚ))]
  simp [csgDifference, sdfToFogVolume, FloatGrid.create]

lemma buildMask_trace_pos (p : Params) (o : RasterOracle) (geo : PointGeo)
    (pl : ParticleList) (ro : RefOutcome) (bw : Int)
    (hoff : 0 < min (max p.boundinglimit 0) 1) :
    (buildMask p o geo pl ro bw).trace =
      if p.conversion = 0 then
        [TraceOp.raster TargetId.maskMax
          (mkRasterCall p
            (pl.setRadiusMult (pl.radiusMult * (1 + min (max p.boundinglimit 0) 1)))),
         TraceOp.raster TargetId.maskMin
          (mkRasterCall p
            (pl.setRadiusMult (pl.radiusMult * (1 - min (max p.boundinglimit 0) 1))))]
      else
        [TraceOp.topo TargetId.maskMax bw p.closing
          (Int.ceil (((min p.dilation 1 : Int) : ℚ)
            * (1 + min (max p.boundinglimit 0) 1))) p.smoothing,
         TraceOp.topo TargetId.maskMin bw p.closing
          (ratTrunc (((min p.dilation 1 : Int) : ℚ)
            * (1 - min (max p.boundinglimit 0) 1))) p.smoothing] := by
  simp only [buildMask]
  rw [if_pos hoff]
  split <;> simp [convert_call]

lemma addAttributeDetails_srcName (k : ValueKind) (a : GeoAttr) (ts : Nat)
    (cn : String) (vt : Option Int) :
    ∀ d ∈ addAttributeDetails k a ts cn vt, d.srcName = a.name := by
  intro d hd
  cases vt with
  | none =>
      simp only [addAttributeDetails, List.mem_map] at hd
      obtain ⟨c, _, rfl⟩ := hd
      rfl
  | some v =>
      simp only [addAttributeDetails, List.mem_singleton] at hd
      subst hd
      rfl

lemma detailsFor_srcName (a : GeoAttr) (cn : String) (vt : Int)
    (ds : List AttributeDetail) (h : detailsFor a cn vt = some ds) :
    ∀ d ∈ ds, d.srcName = a.name := by
  intro d hd
  simp only [detailsFor] at h
  obtain ⟨nm, st, ts, ti, ht⟩ := a
  cases st <;> simp only [Option.some.injEq] at h
  case otherStorage => exact Option.noConfusion h
  case int64 =>
      subst h
      exact addAttributeDetails_srcName _ _ _ _ _ d hd
  all_goals
    split at h <;>
      · subst h
        exact addAttributeDetails_srcName _ _ _ _ _ d hd

lemma cgalStepTail_inst (geo : PointGeo) (st : CgalState) (r : AttrRequest) :
    (cgalStepTail geo st r).inst = st.inst := by
  simp only [cgalStepTail]
  split
  · rfl
  · split
    · rfl
    · split <;> rfl

lemma cgalStepTail_details (geo : PointGeo) (st : CgalState) (r : AttrRequest) :
    ∀ d ∈ (cgalStepTail geo st r).details, d ∈ st.details ∨ d.srcName = r.attrName := by
  intro d hd
  simp only [cgalStepTail] at hd
  split at hd
  · exact Or.inl hd
  · rename_i a hf
    split at hd
    · exact Or.inl hd
    · split at hd
      · exact Or.inl hd
      · rename_i ds hdf
        rcases List.mem_append.mp hd with h | h
        · exact Or.inl h
        · right
          have hname := detailsFor_srcName a r.gridName r.vecType ds hdf d h
          have heq : a.name = r.attrName := by
            have hb := List.find?_some hf
            simpa using hb
          rw [hname, heq]

lemma cgalStep_inst (geo : PointGeo) (st : CgalState) (ir : Nat × AttrRequest) :
    (cgalStep geo st ir).inst =
      if ¬ ir.2.attrName.length = 0 ∧ ir.2.attrName = "point_list_index"
      then (ir.1 : Int) else st.inst := by
  simp only [cgalStep]
  by_cases h1 : ir.2.attrName.length = 0
  · have h2 : ¬(¬ ir.2.attrName.length = 0 ∧ ir.2.attrName = "point_list_index") :=
      fun hc => hc.1 h1
    rw [if_pos h1, if_neg h2]
  · by_cases h2 : ir.2.attrName = "point_list_index"
    · rw [if_neg h1, if_pos h2, if_pos ⟨h1, h2⟩]
    · rw [if_neg h1, if_neg h2, cgalStepTail_inst, if_neg (fun hc => h2 hc.2)]

lemma cgalStep_details (geo : PointGeo) (st : CgalState) (ir : Nat × AttrRequest) :
    ∀ d ∈ (cgalStep geo st ir).details,
      d ∈ st.details ∨ (d.srcName = ir.2.attrName ∧ ir.2.attrName ≠ "point_list_index") := by
  intro d hd
  simp only [cgalStep] at hd
  by_cases h1 : ir.2.attrName.length = 0
  · rw [if_pos h1] at hd
    exact Or.inl hd
  · rw [if_neg h1] at hd
    by_cases h2 : ir.2.attrName = "point_list_index"
    · rw [if_pos h2] at hd
      exact Or.inl hd
    · rw [if_neg h2] at hd
      rcases cgalStepTail_details geo st ir.2 d hd with h | h
      · exact Or.inl h
      · exact Or.inr ⟨h, h2⟩

lemma cgal_foldl_no_pli (geo : PointGeo) :
    ∀ (l : List (Nat × AttrRequest)) (st : CgalState),
      (∀ d ∈ st.details, d.srcName ≠ "point_list_index") →
      ∀ d ∈ (l.foldl (cgalStep geo) st).details, d.srcName ≠ "point_list_index" := by
  intro l
  induction l with
  | nil => exact fun st h0 => h0
  | cons q l ih =>
      intro st h0
      simp only [List.foldl_cons]
      refine ih _ ?_
      intro d hd
      rcases cgalStep_details geo st q d hd with h | ⟨h1, h2⟩
      · exact h0 d h
      · rw [h1]
        exact h2

lemma cgal_foldl_inst (geo : PointGeo) (C : Int → Prop) :
    ∀ (l : List (Nat × AttrRequest)) (st : CgalState),
      (st.inst = -1 ∨ C st.inst) →
      (∀ q ∈ l, q.2.attrName = "point_list_index" → C (q.1 : Int)) →
      ((l.foldl (cgalStep geo) st).inst = -1 ∨ C ((l.foldl (cgalStep geo) st).inst)) := by
  intro l
  induction l with
  | nil => exact fun st h0 _ => h0
  | cons q l ih =>
      intro st h0 hl
      simp only [List.foldl_cons]
      refine ih _ ?_ (fun q2 hq => hl q2 (List.mem_cons_of_mem _ hq))
      rw [cgalStep_inst]
      split
      · rename_i hcond
        exact Or.inr (hl q (List.mem_cons_self _ _) hcond.2)
      · exact h0

lemma enumFrom1_mem : ∀ {l : List AttrRequest} {k i : Nat} {r : AttrRequest},
    (i, r) ∈ enumFrom1 k l → k ≤ i ∧ l.get? (i - k) = some r := by
  intro l
  induction l with
  | nil =>
      intro k i r h
      simp [enumFrom1] at h
  | cons hd tl ih =>
      intro k i r h
      rw [enumFrom1, List.mem_cons] at h
      rcases h with h | h
      · rw [Prod.mk.injEq] at h
        obtain ⟨rfl, rfl⟩ := h
        simp
      · have h2 := ih h
        refine ⟨by omega, ?_⟩
        have hik : i - k = (i - (k + 1)) + 1 := by omega
        rw [hik, List.get?_cons_succ]
        exact h2.2

lemma processReference_some (p : Params) (tr : Transform) (vs bg : ℚ) (rp : RefPrim) :
    processReference p tr vs bg (some (some rp)) = Except.ok (refOutcomeFor p bg rp) := rfl

lemma refOutcomeFor_transform (p : Params) (bg : ℚ) (rp : RefPrim) :
    (refOutcomeFor p bg rp).transform = rp.transform := rfl

lemma refOutcomeFor_messages_ls (p : Params) (bg : ℚ) (rp : RefPrim)
    (hls : rp.gridClass = GridClass.levelSet) (hft : rp.isFloatType = true) :
    (refOutcomeFor p bg rp).messages = [bandMatchMsg] := by
  simp [refOutcomeFor, hls, hft]

lemma refOutcomeFor_mergeGrid_none (p : Params) (bg : ℚ) (rp : RefPrim)
    (hnot : ¬(rp.gridClass = GridClass.levelSet ∧ rp.isFloatType = true)) :
    (refOutcomeFor p bg rp).mergeGrid = none := by
  simp only [refOutcomeFor]
  by_cases hm : p.merge = true
  · by_cases hls : rp.gridClass = GridClass.levelSet
    · have hft : ¬ rp.isFloatType = true := fun h => hnot ⟨hls, h⟩
      simp [hm, hls, hft]
    · simp [hm, hls]
  · simp [hm]

lemma refOutcomeFor_background_ui (p : Params) (bg : ℚ) (rp : RefPrim)
    (hnot : ¬(rp.gridClass = GridClass.levelSet ∧ rp.isFloatType = true)) :
    (refOutcomeFor p bg rp).background = bg := by
  simp [refOutcomeFor, hnot]

lemma refOutcomeFor_warnings_ne (p : Params) (bg : ℚ) (rp : RefPrim)
    (hm : p.merge = true)
    (hnot : ¬(rp.gridClass = GridClass.levelSet ∧ rp.isFloatType = true)) :
    (refOutcomeFor p bg rp).warnings ≠ [] := by
  simp only [refOutcomeFor, hm, if_true]
  by_cases hls : rp.gridClass = GridClass.levelSet
  · have hft : ¬ rp.isFloatType = true := fun h => hnot ⟨hls, h⟩
    simp [hls, hft]
  · simp [hls]

lemma refOutcomeFor_mergeGrid_background (p : Params) (bg : ℚ) (rp : RefPrim)
    (hls : rp.gridClass = GridClass.levelSet) (hft : rp.isFloatType = true) :
    (match (refOutcomeFor p bg rp).mergeGrid with
     | some g => g.background
     | none => (refOutcomeFor p bg rp).background) = rp.background := by
  by_cases hm : p.merge = true <;>
    simp [refOutcomeFor, hls, hft, hm, RefPrim.asFloatGrid]

/-! ### Claim theorems -/

/-- C5: if no output field type is requested (distance off, fog off, no
attribute descriptors), the cook aborts immediately with the single
warning `No output selected` and produces no output primitives: no grid
is created and no library call (rasterization) is traced. -/
theorem C5_no_output_selected (o : RasterOracle) (inp : CookInput)
    (hv : ¬ inp.params.voxelsize < 1 / 100000)
    (h : inp.params.buildfog = false ∧ inp.params.builddistance = false
      ∧ inp.params.attrs = []) :
    cookVDBSop o inp =
      { errors := [], warnings := [noOutputMsg], messages := [], prims := [],
        trace := [] } := by
  unfold cookVDBSop
  rw [if_neg hv, if_pos h]

/-- C5 witness: the abort on a concrete input with only the distance
output switched off. -/
theorem C5_no_output_selected_witness :
    cookVDBSop trivOracle c5Input =
      { errors := [], warnings := [noOutputMsg], messages := [], prims := [],
        trace := [] } :=
  C5_no_output_selected trivOracle c5Input
    (by norm_num [c5Input, baseParams]) ⟨rfl, rfl, rfl⟩

/-- C6: requesting only the mask output (distance off, fog off, no
attribute descriptors) still aborts with the `No output selected`
warning; the mask toggle alone does not count as an output selection and
no field of any kind is produced. -/
theorem C6_mask_only_aborts (o : RasterOracle) (inp : CookInput)
    (hv : ¬ inp.params.voxelsize < 1 / 100000)
    (hmask : inp.params.buildmask = true)
    (hdist : inp.params.builddistance = false)
    (hfog : inp.params.buildfog = false)
    (hattr : inp.params.attrs = []) :
    inp.params.buildmask = true ∧
    (cookVDBSop o inp).warnings = [noOutputMsg] ∧ (cookVDBSop o inp).prims = []
      ∧ (cookVDBSop o inp).trace = [] := by
  unfold cookVDBSop
  rw [if_neg hv, if_pos ⟨hfog, hdist, hattr⟩]
  exact ⟨hmask, rfl, rfl, rfl⟩

/-- C6 witness: the abort on a concrete input requesting only the mask
output. -/
theorem C6_mask_only_aborts_witness :
    c6Input.params.buildmask = true ∧
    (cookVDBSop trivOracle c6Input).warnings = [noOutputMsg]
      ∧ (cookVDBSop trivOracle c6Input).prims = []
      ∧ (cookVDBSop trivOracle c6Input).trace = [] :=
  C6_mask_only_aborts trivOracle c6Input
    (by norm_num [c6Input, baseParams]) rfl rfl rfl rfl

/-- C7: the adapter returns `radiusMultiplier * storedRadius` whenever
the radius attribute exists (both through `getPosRad` and through the
trail-path `getPosRadVel`); when no radius attribute exists, the
sphere-path rasterization call substitutes the bare multiplier as a
constant radius and `getPosRadVel` returns the bare multiplier. -/
theorem C7_adapter_radius (p : Params) (pl : ParticleList) (n : Nat) :
    (pl.hasRadius = true → (pl.getPosRad n).2 = pl.radiusMult * pl.storedRadius n) ∧
    (pl.hasRadius = true →
      (pl.getPosRadVel n).2.1 = pl.radiusMult * pl.storedRadius n) ∧
    (pl.hasRadius = false → (p.velocitytrails && pl.hasVelocity) = false →
      (mkRasterCall p pl).mode = RasterMode.spheresConstRadius pl.radiusMult) ∧
    (pl.hasRadius = false → (pl.getPosRadVel n).2.1 = pl.radiusMult) := by
  refine ⟨fun _ => rfl, fun h => ?_, fun h1 h2 => ?_, fun h => ?_⟩
  · simp [ParticleList.getPosRadVel, h]
  · simp [mkRasterCall, h1, h2]
  · simp [ParticleList.getPosRadVel, h]

/-- C7 witness: with a stored `pscale` of 3 and multiplier 2 the adapter
radius is 6; without a radius attribute the trail-path radius is the bare
multiplier 2 and the sphere call uses constant radius 2. -/
theorem C7_adapter_radius_witness :
    (plRad.getPosRad 0).2 = 2 * 3 ∧ (plRad.getPosRadVel 0).2.1 = 2 * 3 ∧
    (mkRasterCall baseParams plNoRad).mode = RasterMode.spheresConstRadius 2 ∧
    (plNoRad.getPosRadVel 0).2.1 = 2 := by
  have h1 := C7_adapter_radius baseParams plRad 0
  have h2 := C7_adapter_radius baseParams plNoRad 0
  exact ⟨h1.1 rfl, h1.2.1 rfl, h2.2.2.1 rfl rfl, h2.2.2.2 rfl⟩

/-- C9: the half-band unit converter is a pure invertible pair at any
positive voxel size: converting voxels to world multiplies by the voxel
size, world to voxels divides by it, and each conversion round-trips to
the original value; `convertUnits` computes exactly these. -/
theorem C9_halfband_roundtrip (s v w : ℚ) (h : 0 < s) :
    worldToVoxel (voxelToWorld v s) s = v ∧
    voxelToWorld (worldToVoxel w s) s = w ∧
    convertUnits true s w v = (voxelToWorld v s, v) ∧
    convertUnits false s w v = (w, worldToVoxel w s) := by
  have hs : s ≠ 0 := ne_of_gt h
  refine ⟨?_, ?_, rfl, rfl⟩
  · rw [voxelToWorld, worldToVoxel]
    exact mul_div_cancel_right₀ v hs
  · rw [voxelToWorld, worldToVoxel]
    exact div_mul_cancel₀ w hs

/-- C9 witness: round trip at voxel size one tenth. -/
theorem C9_halfband_roundtrip_witness :
    worldToVoxel (voxelToWorld 3 (1/10)) (1/10) = 3 ∧
    voxelToWorld (worldToVoxel (7/2) (1/10)) (1/10) = 7/2 ∧
    convertUnits true (1/10) (7/2) 3 = (voxelToWorld 3 (1/10), 3) ∧
    convertUnits false (1/10) (7/2) 3 = (7/2, worldToVoxel (7/2) (1/10)) :=
  C9_halfband_roundtrip (1/10) 3 (7/2) (by norm_num)

/-- C10: any evaluated voxel size strictly below `1e-5` makes the cook
record the fatal error and return before any work: no warnings, no
messages, no output primitives, and no library call traced. -/
theorem C10_small_voxel_fatal (o : RasterOracle) (inp : CookInput)
    (h : inp.params.voxelsize < 1 / 100000) :
    cookVDBSop o inp =
      { errors := [voxelSizeErrMsg], warnings := [], messages := [], prims := [],
        trace := [] } := by
  unfold cookVDBSop
  rw [if_pos h]

/-- C10 witness: the fatal abort at voxel size `1e-6`. -/
theorem C10_small_voxel_fatal_witness :
    cookVDBSop trivOracle c10Input =
      { errors := [voxelSizeErrMsg], warnings := [], messages := [], prims := [],
        trace := [] } :=
  C10_small_voxel_fatal trivOracle c10Input (by norm_num [c10Input, baseParams])

/-- C2 counterexample: with merging requested and the second input
connected but holding no VDB primitive (a form of "reference field
absent"), the cook records a fatal error and aborts with no warning and
no output, contradicting the claim that this case yields a non-fatal
warning, a skipped merge and a standalone output. -/
theorem C2_counterexample :
    c2Input.params.merge = true ∧ c2Input.refInput = some none ∧
    (cookVDBSop trivOracle c2Input).errors = [noVdbPrimsMsg] ∧
    (cookVDBSop trivOracle c2Input).warnings = [] ∧
    (cookVDBSop trivOracle c2Input).prims = [] := by
  refine ⟨rfl, rfl, ?_, ?_, ?_⟩ <;>
    norm_num [cookVDBSop, c2Input, baseParams, processReference]

/-- C2 (amended): whenever merging is requested and a reference VDB
primitive is present but is not a float-typed level set, the cook
records a non-fatal warning, produces no merge grid (the merge is
skipped and the reference block succeeds), aborts nothing, and the
distance output, when requested, is a standalone grid carrying the
UI-derived background. -/
theorem C2_merge_refused (o : RasterOracle) (inp : CookInput) (rp : RefPrim)
    (href : inp.refInput = some (some rp))
    (hv : ¬ inp.params.voxelsize < 1 / 100000)
    (hout : ¬(inp.params.buildfog = false ∧ inp.params.builddistance = false
      ∧ inp.params.attrs = []))
    (hm : inp.params.merge = true)
    (hnot : ¬(rp.gridClass = GridClass.levelSet ∧ rp.isFloatType = true)) :
    (cookVDBSop o inp).errors = [] ∧
    (cookVDBSop o inp).warnings ≠ [] ∧
    (∃ ro, processReference inp.params (uiTransform inp.params) inp.params.voxelsize
        (uiBackground inp.params) inp.refInput = Except.ok ro ∧
      ro.mergeGrid = none ∧ cookVDBSop o inp = cookMain o inp ro) ∧
    (inp.params.builddistance = true →
      ∃ g, OutGrid.fgrid g ∈ (cookVDBSop o inp).prims ∧
        g.name = inp.params.distancename ∧
        g.background = uiBackground inp.params) := by
  have hpr : processReference inp.params (uiTransform inp.params) inp.params.voxelsize
      (uiBackground inp.params) inp.refInput
      = Except.ok (refOutcomeFor inp.params (uiBackground inp.params) rp) := by
    rw [href]
    exact processReference_some _ _ _ _ _
  have hck := cook_eq_cookMain o inp _ hv hout hpr
  rw [hck]
  refine ⟨cookMain_errors o inp _,
    cookMain_warnings_ne o inp _ (refOutcomeFor_warnings_ne _ _ _ hm hnot),
    ⟨_, hpr, refOutcomeFor_mergeGrid_none _ _ _ hnot, rfl⟩, ?_⟩
  intro hd
  refine ⟨_, cookMain_distance_mem o inp _ hd, rfl, ?_⟩
  show (mainConversion inp.params o inp.ptGeo (cookPaList inp) _ (cookBandWidth _)).grid.background
    = uiBackground inp.params
  rw [mainConversion_grid_background, refOutcomeFor_mergeGrid_none _ _ _ hnot]
  exact refOutcomeFor_background_ui _ _ _ hnot

/-- C2 witness: a fog-volume reference primitive with merging requested
yields an errorless cook with a nonempty warning list, no merge grid,
and a standalone distance output. -/
theorem C2_merge_refused_witness :
    (cookVDBSop trivOracle c2wInput).errors = [] ∧
    (cookVDBSop trivOracle c2wInput).warnings ≠ [] ∧
    (∃ ro, processReference c2wInput.params (uiTransform c2wInput.params)
        c2wInput.params.voxelsize (uiBackground c2wInput.params) c2wInput.refInput
        = Except.ok ro ∧
      ro.mergeGrid = none ∧ cookVDBSop trivOracle c2wInput = cookMain trivOracle c2wInput ro) ∧
    (c2wInput.params.builddistance = true →
      ∃ g, OutGrid.fgrid g ∈ (cookVDBSop trivOracle c2wInput).prims ∧
        g.name = c2wInput.params.distancename ∧
        g.background = uiBackground c2wInput.params) :=
  C2_merge_refused trivOracle c2wInput refFog rfl
    (by norm_num [c2wInput, baseParams])
    (by simp [c2wInput, baseParams])
    rfl
    (by simp [refFog])

/-- C3: whenever a reference VDB primitive is supplied (and the cook
proceeds), every output primitive carries the reference's transform; and
when the reference is a float-typed level set, the cook reports the
half-band override diagnostic and the distance output, when requested,
carries the reference's background value instead of the UI-derived one. -/
theorem C3_reference_adoption (o : RasterOracle) (inp : CookInput) (rp : RefPrim)
    (href : inp.refInput = some (some rp))
    (hv : ¬ inp.params.voxelsize < 1 / 100000)
    (hout : ¬(inp.params.buildfog = false ∧ inp.params.builddistance = false
      ∧ inp.params.attrs = [])) :
    (∀ x ∈ (cookVDBSop o inp).prims, OutGrid.transform x = rp.transform) ∧
    (rp.gridClass = GridClass.levelSet → rp.isFloatType = true →
      (cookVDBSop o inp).messages = [bandMatchMsg] ∧
      (inp.params.builddistance = true →
        ∃ g, OutGrid.fgrid g ∈ (cookVDBSop o inp).prims ∧
          g.name = inp.params.distancename ∧ g.background = rp.background)) := by
  have hpr : processReference inp.params (uiTransform inp.params) inp.params.voxelsize
      (uiBackground inp.params) inp.refInput
      = Except.ok (refOutcomeFor inp.params (uiBackground inp.params) rp) := by
    rw [href]
    exact processReference_some _ _ _ _ _
  rw [cook_eq_cookMain o inp _ hv hout hpr]
  constructor
  · intro x hx
    exact (cookMain_prims_transform o inp _ x hx).trans
      (refOutcomeFor_transform _ _ _)
  · intro hls hft
    constructor
    · rw [cookMain_messages]
      exact refOutcomeFor_messages_ls _ _ _ hls hft
    · intro hd
      refine ⟨_, cookMain_distance_mem o inp _ hd, rfl, ?_⟩
      show (mainConversion inp.params o inp.ptGeo (cookPaList inp) _
        (cookBandWidth _)).grid.background = rp.background
      rw [mainConversion_grid_background]
      exact refOutcomeFor_mergeGrid_background _ _ _ hls hft

/-- C3 witness: with a concrete float level-set reference primitive the
output primitives carry its transform, the override diagnostic is
reported, and the distance grid carries its background. -/
theorem C3_reference_adoption_witness :
    (∀ x ∈ (cookVDBSop trivOracle c3Input).prims, OutGrid.transform x = refLS.transform) ∧
    (refLS.gridClass = GridClass.levelSet → refLS.isFloatType = true →
      (cookVDBSop trivOracle c3Input).messages = [bandMatchMsg] ∧
      (c3Input.params.builddistance = true →
        ∃ g, OutGrid.fgrid g ∈ (cookVDBSop trivOracle c3Input).prims ∧
          g.name = c3Input.params.distancename ∧ g.background = refLS.background)) :=
  C3_reference_adoption trivOracle c3Input refLS rfl
    (by norm_num [c3Input, baseParams])
    (by simp [c3Input, baseParams])

/-- C4: when the mask output is requested, the clamped bounding-limit
offset is zero, and the cook proceeds (valid voxel size, some output
selected, reference processing succeeds), the produced mask primitive is
empty: its active-voxel list is empty and every coordinate evaluates to
the background value. -/
theorem C4_zero_offset_empty_mask (o : RasterOracle) (inp : CookInput)
    (hv : ¬ inp.params.voxelsize < 1 / 100000)
    (hout : ¬(inp.params.buildfog = false ∧ inp.params.builddistance = false
      ∧ inp.params.attrs = []))
    (href : inp.refInput ≠ some none)
    (hmask : inp.params.buildmask = true)
    (hoff : min (max inp.params.boundinglimit 0) 1 = 0) :
    ∃ g, OutGrid.fgrid g ∈ (cookVDBSop o inp).prims ∧ g.name = inp.params.maskname ∧
      g.voxels = [] ∧ ∀ c, g.valueAt c = g.background := by
  obtain ⟨ro, hro⟩ := processReference_ok_of_ne inp.params (uiTransform inp.params)
    inp.params.voxelsize (uiBackground inp.params) inp.refInput href
  rw [cook_eq_cookMain o inp ro hv hout hro]
  refine ⟨_, cookMain_mask_mem o inp ro hmask, buildMask_grid_name _ _ _ _ _ _, ?_, ?_⟩
  · rw [buildMask_offset_zero _ _ _ _ _ _ hoff]
  · intro c
    apply FloatGrid.valueAt_empty
    rw [buildMask_offset_zero _ _ _ _ _ _ hoff]

/-- C4 witness: requesting the mask with a bounding limit of zero on a
concrete input yields the empty mask primitive. -/
theorem C4_zero_offset_empty_mask_witness :
    ∃ g, OutGrid.fgrid g ∈ (cookVDBSop trivOracle c4Input).prims ∧
      g.name = c4Input.params.maskname ∧
      g.voxels = [] ∧ ∀ c, g.valueAt c = g.background :=
  C4_zero_offset_empty_mask trivOracle c4Input
    (by norm_num [c4Input, baseParams])
    (by simp [c4Input, baseParams])
    (by simp [c4Input])
    rfl
    (by norm_num [c4Input, baseParams])

/-- C1 counterexample: with `dilation = 3` and a clamped offset of one
half on the topology path, the cook's two auxiliary
`topologyToLevelSet` calls use dilation counts 2 and 0 — the claim's
formulas `ceil(baseDilation*(1+offset))` and
`floor(baseDilation*(1-offset))` with `baseDilation` equal to the
primary dilation parameter predict 5 and 1, and no call with those
counts occurs. -/
theorem C1_counterexample :
    c1Input.params.dilation = 3 ∧
    min (max c1Input.params.boundinglimit 0) 1 = 1/2 ∧
    (cookVDBSop trivOracle c1Input).trace =
      [TraceOp.topo TargetId.main 3 1 3 0,
       TraceOp.topo TargetId.maskMax 3 1 2 0,
       TraceOp.topo TargetId.maskMin 3 1 0 0] ∧
    Int.ceil ((c1Input.params.dilation : ℚ) * (1 + 1/2)) = 5 ∧
    Int.floor ((c1Input.params.dilation : ℚ) * (1 - 1/2)) = 1 ∧
    ¬ TraceOp.topo TargetId.maskMax 3 1 5 0 ∈ (cookVDBSop trivOracle c1Input).trace ∧
    ¬ TraceOp.topo TargetId.maskMin 3 1 1 0 ∈ (cookVDBSop trivOracle c1Input).trace := by
  have htr : (cookVDBSop trivOracle c1Input).trace =
      [TraceOp.topo TargetId.main 3 1 3 0,
       TraceOp.topo TargetId.maskMax 3 1 2 0,
       TraceOp.topo TargetId.maskMin 3 1 0 0] := by
    norm_num [cookVDBSop, c1Input, c1Params, baseParams, cookMain, processReference,
      uiBackground, uiTransform, mainConversion, buildMask, ratTrunc, trivOracle,
      cookPaList, cookBandWidth, Int.ceil_eq_iff, Int.floor_eq_iff]
  refine ⟨rfl, ?_, htr, ?_, ?_, ?_, ?_⟩
  · norm_num [c1Input, c1Params, baseParams, min_def, max_def]
  · norm_num [c1Input, c1Params, baseParams, Int.ceil_eq_iff]
  · norm_num [c1Input, c1Params, baseParams, Int.floor_eq_iff]
  · rw [htr]
    decide
  · rw [htr]
    decide

/-- C1 (amended): for every bounding-mask build with clamped offset in
`(0, 1]`, on the sphere path the two auxiliary rasterizations run with
the adapter's radius multiplier set to `radiusScale * (1 + offset)` and
`radiusScale * (1 - offset)`; on the topology path the two auxiliary
`topologyToLevelSet` calls use dilation counts
`ceil(min(baseDilation, 1) * (1 + offset))` and
`floor(min(baseDilation, 1) * (1 - offset))`, where `baseDilation` is
the primary conversion's dilation parameter (assumed nonnegative, as the
UI enforces). -/
theorem C1_mask_offset_scaling (o : RasterOracle) (inp : CookInput)
    (hv : ¬ inp.params.voxelsize < 1 / 100000)
    (hout : ¬(inp.params.buildfog = false ∧ inp.params.builddistance = false
      ∧ inp.params.attrs = []))
    (href : inp.refInput ≠ some none)
    (hmask : inp.params.buildmask = true)
    (hdil : 0 ≤ inp.params.dilation)
    (hoff : 0 < min (max inp.params.boundinglimit 0) 1) :
    (inp.params.conversion = 0 →
      ∃ c1 c2,
        TraceOp.raster TargetId.maskMax c1 ∈ (cookVDBSop o inp).trace ∧
        TraceOp.raster TargetId.maskMin c2 ∈ (cookVDBSop o inp).trace ∧
        c1.paList.radiusMult
          = inp.params.particlescale * (1 + min (max inp.params.boundinglimit 0) 1) ∧
        c2.paList.radiusMult
          = inp.params.particlescale * (1 - min (max inp.params.boundinglimit 0) 1)) ∧
    (¬ inp.params.conversion = 0 →
      ∃ bw,
        TraceOp.topo TargetId.maskMax bw inp.params.closing
          (Int.ceil (((min inp.params.dilation 1 : Int) : ℚ)
            * (1 + min (max inp.params.boundinglimit 0) 1))) inp.params.smoothing
          ∈ (cookVDBSop o inp).trace ∧
        TraceOp.topo TargetId.maskMin bw inp.params.closing
          (Int.floor (((min inp.params.dilation 1 : Int) : ℚ)
            * (1 - min (max inp.params.boundinglimit 0) 1))) inp.params.smoothing
          ∈ (cookVDBSop o inp).trace) := by
  obtain ⟨ro, hro⟩ := processReference_ok_of_ne inp.params (uiTransform inp.params)
    inp.params.voxelsize (uiBackground inp.params) inp.refInput href
  rw [cook_eq_cookMain o inp ro hv hout hro, cookMain_trace o inp ro hmask,
    buildMask_trace_pos _ _ _ _ _ _ hoff]
  constructor
  · intro hc
    rw [if_pos hc]
    exact ⟨mkRasterCall inp.params
        ((cookPaList inp).setRadiusMult
          ((cookPaList inp).radiusMult * (1 + min (max inp.params.boundinglimit 0) 1))),
      mkRasterCall inp.params
        ((cookPaList inp).setRadiusMult
          ((cookPaList inp).radiusMult * (1 - min (max inp.params.boundinglimit 0) 1))),
      List.mem_append_right _ (List.mem_cons_self _ _),
      List.mem_append_right _ (List.mem_cons_of_mem _ (List.mem_cons_self _ _)),
      rfl, rfl⟩
  · intro hc
    rw [if_neg hc]
    refine ⟨cookBandWidth ro, ?_, ?_⟩
    · exact List.mem_append_right _ (List.mem_cons_self _ _)
    · have hnn : (0 : ℚ) ≤ ((min inp.params.dilation 1 : Int) : ℚ)
          * (1 - min (max inp.params.boundinglimit 0) 1) := by
        apply mul_nonneg
        · have hd0 : (0 : Int) ≤ min inp.params.dilation 1 := le_min hdil (by norm_num)
          exact_mod_cast hd0
        · have h1 : min (max inp.params.boundinglimit 0) 1 ≤ 1 := min_le_right _ _
          linarith
      rw [← ratTrunc_of_nonneg hnn]
      exact List.mem_append_right _ (List.mem_cons_of_mem _ (List.mem_cons_self _ _))

/-- C1 witness: the sphere-path conclusion at a concrete input with
particle scale 2 and clamped offset one quarter. -/
theorem C1_mask_offset_scaling_witness :
    (c1sInput.params.conversion = 0 →
      ∃ c1 c2,
        TraceOp.raster TargetId.maskMax c1 ∈ (cookVDBSop trivOracle c1sInput).trace ∧
        TraceOp.raster TargetId.maskMin c2 ∈ (cookVDBSop trivOracle c1sInput).trace ∧
        c1.paList.radiusMult
          = c1sInput.params.particlescale * (1 + min (max c1sInput.params.boundinglimit 0) 1) ∧
        c2.paList.radiusMult
          = c1sInput.params.particlescale
            * (1 - min (max c1sInput.params.boundinglimit 0) 1)) ∧
    (¬ c1sInput.params.conversion = 0 →
      ∃ bw,
        TraceOp.topo TargetId.maskMax bw c1sInput.params.closing
          (Int.ceil (((min c1sInput.params.dilation 1 : Int) : ℚ)
            * (1 + min (max c1sInput.params.boundinglimit 0) 1))) c1sInput.params.smoothing
          ∈ (cookVDBSop trivOracle c1sInput).trace ∧
        TraceOp.topo TargetId.maskMin bw c1sInput.params.closing
          (Int.floor (((min c1sInput.params.dilation 1 : Int) : ℚ)
            * (1 - min (max c1sInput.params.boundinglimit 0) 1))) c1sInput.params.smoothing
          ∈ (cookVDBSop trivOracle c1sInput).trace) :=
  C1_mask_offset_scaling trivOracle c1sInput
    (by norm_num [c1sInput, c1sParams, baseParams])
    (by simp [c1sInput, c1sParams, baseParams])
    (by simp [c1sInput])
    rfl
    (by norm_num [c1sInput, c1sParams, baseParams])
    (by norm_num [c1sInput, c1sParams, baseParams, min_def, max_def])

/-- C8: no descriptor whose source attribute is the reserved name
`point_list_index` is ever materialized from the attribute store, and
when such a descriptor exists, the recorded multiparm instance denotes a
`point_list_index` request and the rasterizer's index grid itself is
exported, named by that request's output name, defaulting to
`point_list_index` when the output name is empty. -/
theorem C8_point_list_index (geo : PointGeo) (p : Params) (o : RasterOracle)
    (g : FloatGrid) (pl : ParticleList)
    (hattrs : 0 < p.attrs.length) :
    (∀ d ∈ (constructGenericAtttributeList geo p.attrs).details,
      d.srcName ≠ "point_list_index") ∧
    ((constructGenericAtttributeList geo p.attrs).inst ≠ -1 →
      ∃ i : Nat, ∃ r : AttrRequest,
        (constructGenericAtttributeList geo p.attrs).inst = (i : Int) ∧ 1 ≤ i ∧
        p.attrs.get? (i - 1) = some r ∧ r.attrName = "point_list_index" ∧
        OutGrid.igrid
          { background := 0, voxels := o.idxVoxels g (mkRasterCall p pl),
            transform := g.transform,
            name := if r.gridName = "" then "point_list_index" else r.gridName }
          ∈ (convertWithAttributes p o g pl geo).prims) := by
  constructor
  · exact cgal_foldl_no_pli geo _ _ (by simp)
  · intro hne
    have hinst := cgal_foldl_inst geo
      (fun j => ∃ i : Nat, ∃ r : AttrRequest,
        j = (i : Int) ∧ 1 ≤ i ∧ p.attrs.get? (i - 1) = some r
          ∧ r.attrName = "point_list_index")
      (enumFrom1 1 p.attrs) { details := [], inst := -1, warnings := [] }
      (Or.inl rfl)
      (by
        intro q hq hpli
        obtain ⟨hk, hget⟩ := enumFrom1_mem hq
        exact ⟨q.1, q.2, rfl, hk, hget, hpli⟩)
    rcases hinst with h | h
    · exact absurd h hne
    · obtain ⟨i, r, hji, h1i, hget, hpli⟩ := h
      refine ⟨i, r, hji, h1i, hget, hpli, ?_⟩
      simp only [convertWithAttributes]
      rw [if_pos hattrs]
      have hji2 : (constructGenericAtttributeList geo p.attrs).inst = (i : Int) := hji
      rw [hji2, if_pos (show (-1 : Int) < (i : Int) by omega)]
      rw [Int.toNat_natCast, hget]
      exact List.mem_append_right _ (List.mem_singleton_self _)

/-- C8 witness: with a `density` request and a `point_list_index`
request named `nearest`, no materialized descriptor sources the reserved
name, and the index grid is exported as `nearest`. -/
theorem C8_point_list_index_witness :
    (∀ d ∈ (constructGenericAtttributeList geoAttrs c8Params.attrs).details,
      d.srcName ≠ "point_list_index") ∧
    ((constructGenericAtttributeList geoAttrs c8Params.attrs).inst ≠ -1 →
      ∃ i : Nat, ∃ r : AttrRequest,
        (constructGenericAtttributeList geoAttrs c8Params.attrs).inst = (i : Int) ∧ 1 ≤ i ∧
        c8Params.attrs.get? (i - 1) = some r ∧ r.attrName = "point_list_index" ∧
        OutGrid.igrid
          { background := 0,
            voxels := trivOracle.idxVoxels grid8 (mkRasterCall c8Params pl8),
            transform := grid8.transform,
            name := if r.gridName = "" then "point_list_index" else r.gridName }
          ∈ (convertWithAttributes c8Params trivOracle grid8 pl8 geoAttrs).prims) :=
  C8_point_list_index geoAttrs c8Params trivOracle grid8 pl8
    (by simp [c8Params, baseParams, c8Reqs])

end FromParticles
